import Mathlib

/-!
Verification of the Task/Transfer synchronization engine of a task-routing
client library (Task entity: reconciliation, transfer event dispatch, command
request construction; Routes: route-name resolution).

The JavaScript source is shallowly embedded: JavaScript runtime values are
modelled by the inductive `JSVal` (strings, numbers as integers, booleans,
null, plain objects as association lists); a missing object property is
modelled by `Option` (`none` plays the role of `undefined`).  Stateful methods
become pure functions from the prior `TaskState` to the new state together
with the list of emitted events and an optional error (a thrown exception is
modelled by returning the untouched prior state plus the error value).
Collaborator classes that live outside the embedded source files
(TaskDescriptor, Transfers, Constants, Tools) are modelled from the
specification; each such definition carries a doc comment beginning
`Modelled from the spec:`.
-/

namespace TwilioTaskRouter

/-- A JavaScript runtime value, as far as the embedded code needs one:
null, booleans, numbers (the code only compares and stores them, so integers
suffice), strings, and plain objects as ordered association lists. -/
inductive JSVal where
  | null
  | bool (b : Bool)
  | num (n : Int)
  | str (s : String)
  | obj (fields : List (String × JSVal))

/-- Property access `v[k]`: `none` models `undefined` (missing property or
non-object base). -/
def JSVal.lookup : JSVal → String → Option JSVal
  | .obj fs, k => fs.lookup k
  | _, _ => none

/-- lodash `_.isString`. -/
def JSVal.isString : JSVal → Bool
  | .str _ => true
  | _ => false

/-- lodash `_.isBoolean`. -/
def JSVal.isBool : JSVal → Bool
  | .bool _ => true
  | _ => false

/-- lodash `_.isObject` (our value model has no functions or arrays, so the
object case is exactly the `obj` constructor). -/
def JSVal.isObject : JSVal → Bool
  | .obj _ => true
  | _ => false

/-- JavaScript truthiness of a value. -/
def JSVal.truthy : JSVal → Bool
  | .null => false
  | .bool b => b
  | .num n => n != 0
  | .str s => s != ""
  | .obj _ => true

/-- JavaScript truthiness of a possibly-missing value (`undefined` is falsy). -/
def truthyOpt : Option JSVal → Bool
  | none => false
  | some v => v.truthy

/-- String interpolation display of a value, as in a template literal. -/
def JSVal.display : JSVal → String
  | .null => "null"
  | .bool b => if b then "true" else "false"
  | .num n => toString n
  | .str s => s
  | .obj _ => "[object Object]"

/-- Display of `payload.sid` as interpolated into an error message
(`undefined` when the property is missing). -/
def jsSidOf (payload : JSVal) : String :=
  match payload.lookup "sid" with
  | some v => v.display
  | none => "undefined"

/-- The error taxonomy of the Task entity as named by the specification:
`invalidArgument` models the synchronously thrown TypeError on malformed
caller input, `reconciliationFailed` models the error thrown when a response
payload cannot be parsed into a descriptor (it carries the display of the
offending payload's sid and the underlying parse error text). -/
inductive TaskError where
  | invalidArgument (msg : String)
  | reconciliationFailed (sid : String) (parseErr : String)

/-! ## Descriptor layer (modelled from the spec)

The TaskDescriptor class is not among the embedded source files; only its
use sites are.  It is modelled from the spec: "validates and normalizes a raw
server payload into a fixed set of typed fields for an entity kind" and
"throws on malformed payload", with the required raw property names taken
from the `TaskProperties` list that the embedded source exports. -/

/-- The normalized, typed field set of a Task payload. -/
structure TaskDescriptor where
  sid : String
  attributes : JSVal
  status : String
  workflowSid : String
  workflowName : String
  queueSid : String
  queueName : String
  priority : Int
  reason : Option String
  routingTarget : Option String
  timeout : Int
  taskChannelSid : String
  taskChannelUniqueName : String
  age : Int
  addOns : JSVal
  dateUpdated : Int

/-- Required string property. -/
def getStr (p : JSVal) (k : String) : Except String String :=
  match p.lookup k with
  | some (.str s) => Except.ok s
  | _ => Except.error ("missing or invalid string property " ++ k)

/-- Required integer property. -/
def getInt (p : JSVal) (k : String) : Except String Int :=
  match p.lookup k with
  | some (.num n) => Except.ok n
  | _ => Except.error ("missing or invalid numeric property " ++ k)

/-- Required structured-object property. -/
def getObj (p : JSVal) (k : String) : Except String JSVal :=
  match p.lookup k with
  | some (.obj fs) => Except.ok (.obj fs)
  | _ => Except.error ("missing or invalid object property " ++ k)

/-- Nullable string property (absent or null normalizes to `none`). -/
def getOptStr (p : JSVal) (k : String) : Except String (Option String) :=
  match p.lookup k with
  | some (.str s) => Except.ok (some s)
  | some .null => Except.ok none
  | none => Except.ok none
  | _ => Except.error ("invalid nullable string property " ++ k)

/-- Modelled from the spec: the descriptor collaborator validates a raw Task
payload and normalizes it into the typed field set, failing on any malformed
payload; the required raw property names follow the `TaskProperties` list
exported by the embedded source. -/
def parseTaskDescriptor (p : JSVal) : Except String TaskDescriptor := do
  let sid ← getStr p "sid"
  let attributes ← getObj p "attributes"
  let status ← getStr p "assignment_status"
  let workflowSid ← getStr p "workflow_sid"
  let workflowName ← getStr p "workflow_name"
  let queueSid ← getStr p "queue_sid"
  let queueName ← getStr p "queue_name"
  let priority ← getInt p "priority"
  let reason ← getOptStr p "reason"
  let routingTarget ← getOptStr p "routing_target"
  let timeout ← getInt p "timeout"
  let taskChannelSid ← getStr p "task_channel_sid"
  let taskChannelUniqueName ← getStr p "task_channel_unique_name"
  let age ← getInt p "age"
  let addOns ← getObj p "addons"
  let dateUpdated ← getInt p "date_updated"
  Except.ok
    { sid := sid, attributes := attributes, status := status,
      workflowSid := workflowSid, workflowName := workflowName,
      queueSid := queueSid, queueName := queueName, priority := priority,
      reason := reason, routingTarget := routingTarget, timeout := timeout,
      taskChannelSid := taskChannelSid,
      taskChannelUniqueName := taskChannelUniqueName, age := age,
      addOns := addOns, dateUpdated := dateUpdated }

/-! ## Transfer sub-entity (modelled from the spec)

The Transfers class (the TransferSet) is not among the embedded source files;
only its use sites are.  Spec: at most one incoming and one outgoing transfer
(nullable slots); each transfer entity has its own sid, mode, status and the
identity of the other leg. -/

/-- A transfer sub-entity. -/
structure Transfer where
  sid : String
  mode : String
  status : String
  toSid : String

/-- The TransferSet: at most one incoming and one outgoing transfer. -/
structure TransferSet where
  incoming : Option Transfer
  outgoing : Option Transfer

/-- Modelled from the spec: a transfer entity is built wholesale from a
transfer payload (string properties default to empty when absent, as the
construction itself does not validate). -/
def buildTransfer (p : JSVal) : Transfer :=
  { sid := match p.lookup "sid" with | some (.str s) => s | _ => ""
    mode := match p.lookup "mode" with | some (.str s) => s | _ => ""
    status := match p.lookup "status" with | some (.str s) => s | _ => ""
    toSid := match p.lookup "to" with | some (.str s) => s | _ => "" }

/-- Modelled from the spec: `Transfers._updateOutgoing` (the spec's
`applyOutgoing`) replaces the `outgoing` slot with a transfer entity built
from the payload; called after a successful transfer command and after a
transfer-initiated event. -/
def TransferSet.updateOutgoing (ts : TransferSet) (p : JSVal) : TransferSet :=
  { ts with outgoing := some (buildTransfer p) }

/-- Modelled from the spec: the TransferSet merge routine
(`Transfers._update`) replaces each held slot for which the transfers payload
carries a truthy sub-payload and leaves the other slot untouched. -/
def TransferSet.merge (ts : TransferSet) (p : JSVal) : TransferSet :=
  { incoming :=
      if truthyOpt (p.lookup "incoming") then
        some (buildTransfer ((p.lookup "incoming").getD .null))
      else ts.incoming
    outgoing :=
      if truthyOpt (p.lookup "outgoing") then
        some (buildTransfer ((p.lookup "outgoing").getD .null))
      else ts.outgoing }

/-- An emitted domain event: `taskEvent name` models `emit(name, this)` (the
payload is the Task itself); `transferEvent name payload` models an emission
whose payload is a transfer entity (or the nullable outgoing slot). -/
inductive EmittedEvent where
  | taskEvent (name : String)
  | transferEvent (name : String) (payload : Option Transfer)

/-- Modelled from the spec: the Constants map from wire transfer event types
to the domain event names the Task emits. -/
def taskTransferEventTypes : List (String × String) :=
  [("transfer-attempt-failed", "transferAttemptFailed"),
   ("transfer-canceled", "transferCanceled"),
   ("transfer-completed", "transferCompleted"),
   ("transfer-failed", "transferFailed"),
   ("transfer-initiated", "transferInitiated")]

/-- The Constants key for the transfer-initiated wire event type. -/
def transferInitiatedKey : String := "transfer-initiated"

/-- Embedding of the source guard
`Object.keys(pick(taskTransferEventTypes, [TRANSFER_INITIATED])).indexOf(eventType) > -1`:
the picked map has the single key `transfer-initiated` exactly when the
Constants map carries it, and the index test then asks whether `eventType`
equals that key. -/
def isTransferInitiatedType (eventType : String) : Bool :=
  (taskTransferEventTypes.lookup transferInitiatedKey).isSome
    && eventType == transferInitiatedKey

/-- Strict equality `rawEventData.sid === heldSid` where the held sid is a
string: true exactly when the payload carries a string `sid` equal to it. -/
def sidMatch (raw : JSVal) (heldSid : String) : Bool :=
  match raw.lookup "sid" with
  | some (.str s) => s == heldSid
  | _ => false

/-- Modelled from the spec: the new status a transfer takes when a
non-initiated transfer event is applied to it. -/
def statusForTransferEvent (eventType : String) : String :=
  if eventType == "transfer-attempt-failed" then "attemptFailed"
  else if eventType == "transfer-canceled" then "canceled"
  else if eventType == "transfer-completed" then "completed"
  else if eventType == "transfer-failed" then "failed"
  else eventType

/-- Modelled from the spec: the TransferSet's internal event-application
routine (`Transfers._emitEvent`): for a recognized transfer event type it
updates the matching transfer's status fields and emits the corresponding
domain event scoped to that transfer; events matching no held transfer are
dropped. -/
def TransferSet.applyEvent (ts : TransferSet) (eventType : String)
    (raw : JSVal) : TransferSet × List EmittedEvent :=
  match taskTransferEventTypes.lookup eventType with
  | none => (ts, [])
  | some domainName =>
    match ts.outgoing with
    | some o =>
      if sidMatch raw o.sid then
        let o2 := { o with status := statusForTransferEvent eventType }
        ({ ts with outgoing := some o2 }, [.transferEvent domainName (some o2)])
      else
        match ts.incoming with
        | some i =>
          if sidMatch raw i.sid then
            let i2 := { i with status := statusForTransferEvent eventType }
            ({ ts with incoming := some i2 },
              [.transferEvent domainName (some i2)])
          else (ts, [])
        | none => (ts, [])
    | none =>
      match ts.incoming with
      | some i =>
        if sidMatch raw i.sid then
          let i2 := { i with status := statusForTransferEvent eventType }
          ({ ts with incoming := some i2 },
            [.transferEvent domainName (some i2)])
        else (ts, [])
      | none => (ts, [])

/-! ## The Task entity -/

/-- The mutable local state of a Task (the fields the embedded source reads
and writes; logging and collaborator handles carry no modelled state). -/
structure TaskState where
  sid : String
  reservationSid : String
  attributes : JSVal
  status : String
  workflowSid : String
  workflowName : String
  queueSid : String
  queueName : String
  priority : Int
  reason : Option String
  routingTarget : Option String
  timeout : Int
  taskChannelSid : String
  taskChannelUniqueName : String
  age : Int
  addOns : JSVal
  dateUpdated : Int
  transfers : TransferSet

/-- The per-field overwrite loop of `Task._update` for every name in
`fieldsToUpdate` except `transfers`: each listed field is overwritten
wholesale with the descriptor's value; unlisted fields (sid, reservationSid,
transfers) are untouched. -/
def applyDescriptor (t : TaskState) (d : TaskDescriptor) : TaskState :=
  { t with
    attributes := d.attributes, status := d.status,
    workflowSid := d.workflowSid, workflowName := d.workflowName,
    queueSid := d.queueSid, queueName := d.queueName,
    priority := d.priority, reason := d.reason,
    routingTarget := d.routingTarget, timeout := d.timeout,
    taskChannelSid := d.taskChannelSid,
    taskChannelUniqueName := d.taskChannelUniqueName,
    age := d.age, addOns := d.addOns, dateUpdated := d.dateUpdated }

/-- Embedding of `Task._update(latestTaskData, latestTransfersData = {})`:
parse the payload into a descriptor (failure is caught, logged and rethrown
as the reconciliation error, with no field assigned); on success overwrite
every field of the fixed update set with the descriptor's value and, exactly
when the transfers payload carries a truthy `incoming` or `outgoing`
sub-payload, invoke the TransferSet merge routine.  The result pairs the new
state with an optional thrown error; a thrown error leaves the state at its
prior value. -/
def Task.update (t : TaskState) (latestTaskData : JSVal)
    (latestTransfersData : JSVal) : TaskState × Option TaskError :=
  match parseTaskDescriptor latestTaskData with
  | .error err =>
    (t, some (.reconciliationFailed (jsSidOf latestTaskData) err))
  | .ok d =>
    let t2 := applyDescriptor t d
    let t3 :=
      if truthyOpt (latestTransfersData.lookup "incoming")
          || truthyOpt (latestTransfersData.lookup "outgoing") then
        { t2 with transfers := t2.transfers.merge latestTransfersData }
      else t2
    (t3, none)

/-- The outcome of an event-dispatch entry point: the new state, the emitted
domain events (in order), and the thrown error if any (a thrown error leaves
the state untouched and emits nothing). -/
structure DispatchResult where
  state : TaskState
  emitted : List EmittedEvent
  error : Option TaskError

/-- Embedding of `Task._emitEvent(eventType, rawEventData)`: throws on a
non-string event type or a non-object payload; otherwise emits `eventType`
with the Task itself as payload. -/
def Task.emitEvent (_t : TaskState) (eventType rawEventData : JSVal) :
    Except TaskError (List EmittedEvent) :=
  match eventType with
  | .str s =>
    if rawEventData.isObject then Except.ok [.taskEvent s]
    else Except.error (.invalidArgument
      "Error calling method _emitEvent. object payload is a required parameter.")
  | _ => Except.error (.invalidArgument
      "Error calling _emitEvent. string eventType is a required parameter.")

/-- Embedding of `Task._emitEventForOutgoingTransfer(eventType, rawEventData)`:
after the argument-shape checks, the event is applied only when an outgoing
transfer is held and its sid strictly equals `rawEventData.sid`; a
transfer-initiated event then replaces the outgoing slot and emits the
transfer-initiated domain event carrying the new outgoing entity, any other
event type is forwarded to the TransferSet's internal event-application
routine; a missing or mismatched outgoing transfer only logs. -/
def Task.emitEventForOutgoingTransfer (t : TaskState)
    (eventType rawEventData : JSVal) : DispatchResult :=
  match eventType with
  | .str s =>
    if rawEventData.isObject then
      match t.transfers.outgoing with
      | some out =>
        if sidMatch rawEventData out.sid then
          if isTransferInitiatedType s then
            let ts := t.transfers.updateOutgoing rawEventData
            { state := { t with transfers := ts }
              emitted :=
                [.transferEvent
                  ((taskTransferEventTypes.lookup transferInitiatedKey).getD
                    "undefined") ts.outgoing]
              error := none }
          else
            let applied := t.transfers.applyEvent s rawEventData
            { state := { t with transfers := applied.1 }
              emitted := applied.2, error := none }
        else { state := t, emitted := [], error := none }
      | none => { state := t, emitted := [], error := none }
    else
      { state := t, emitted := [],
        error := some (.invalidArgument
          "Error calling method _emitEventForOutgoingTransfer. object payload is a required parameter.") }
  | _ =>
    { state := t, emitted := [],
      error := some (.invalidArgument
        "Error calling _emitEventForOutgoingTransfer. string eventType is a required parameter.") }

/-! ## Command operations

Each command operation validates its arguments, builds the request parameters
and sends them; the embedding covers the synchronous part (validation and
request construction) as a pure function returning either the built request
parameters or the synchronously thrown error.  The source throws before any
request is issued and before any local field is assigned, so an error result
means no request exists and the Task state is untouched. -/

/-- Request parameters of `complete(reason)`. -/
structure CompleteRequest where
  assignmentStatus : String
  reason : String

/-- Embedding of the validation and request construction of
`Task.complete(reason)`. -/
def Task.completeRequest (_t : TaskState) (reason : JSVal) :
    Except TaskError CompleteRequest :=
  match reason with
  | .str s => Except.ok { assignmentStatus := "completed", reason := s }
  | _ => Except.error (.invalidArgument
      "Error calling method complete. string reason is a required parameter.")

/-- Request parameters of `wrapUp(options)`; `reason` is carried only when
the option was included. -/
structure WrapUpRequest where
  assignmentStatus : String
  reason : Option String

/-- Embedding of the validation and request construction of
`Task.wrapUp(options = {})`: a truthy `options.reason` is carried when it is
a string and throws when it is not; a falsy `options.reason` (including a
missing one) is omitted without any check. -/
def Task.wrapUpRequest (_t : TaskState) (options : JSVal) :
    Except TaskError WrapUpRequest :=
  if truthyOpt (options.lookup "reason") then
    match options.lookup "reason" with
    | some (.str s) => Except.ok { assignmentStatus := "wrapping", reason := some s }
    | _ => Except.error (.invalidArgument
        "Failed to call wrapUp on Task. A string reason is required.")
  else Except.ok { assignmentStatus := "wrapping", reason := none }

/-- Request parameters of `setAttributes(attributes)`. -/
structure SetAttributesRequest where
  attributes : JSVal

/-- Embedding of the validation and request construction of
`Task.setAttributes(attributes)`. -/
def Task.setAttributesRequest (_t : TaskState) (attributes : JSVal) :
    Except TaskError SetAttributesRequest :=
  if attributes.isObject then Except.ok { attributes := attributes }
  else Except.error (.invalidArgument
      "Unable to set attributes on Task. object attributes is a required parameter.")

/-- Modelled from the spec: `Tools.validateOptions(options, types)` with the
schema used by `updateParticipant`: the options must form a structured object
every key of which is the recognized key `hold` carrying a boolean. -/
def validateParticipantOptions (options : JSVal) : Bool :=
  match options with
  | .obj fs => fs.all (fun kv => kv.1 == "hold" && kv.2.isBool)
  | _ => false

/-- Uppercase the first character, as lodash `_.upperFirst`. -/
def upperFirst (s : String) : String :=
  match s.data with
  | [] => ""
  | c :: cs => String.mk (c.toUpper :: cs)

/-- Request parameters of `updateParticipant(options)`: the Task sid plus one
upper-cased parameter per supplied option. -/
structure UpdateParticipantRequest where
  taskSid : String
  params : List (String × JSVal)

/-- Embedding of the validation and request construction of
`Task.updateParticipant(options)`. -/
def Task.updateParticipantRequest (t : TaskState) (options : JSVal) :
    Except TaskError UpdateParticipantRequest :=
  if validateParticipantOptions options then
    Except.ok
      { taskSid := t.sid
        params :=
          match options with
          | .obj fs => fs.map (fun kv => (upperFirst kv.1, kv.2))
          | _ => [] }
  else Except.error (.invalidArgument
      "Failed to update Worker Participant tied to Task. The options passed in did not match the required types.")

/-- Request parameters of `kick(workerSid)`. -/
structure KickRequest where
  taskSid : String
  targetWorkerSid : String

/-- Embedding of the validation and request construction of
`Task.kick(workerSid)`. -/
def Task.kickRequest (t : TaskState) (workerSid : JSVal) :
    Except TaskError KickRequest :=
  match workerSid with
  | .str s => Except.ok { taskSid := t.sid, targetWorkerSid := s }
  | _ => Except.error (.invalidArgument
      "Error calling method kick. string workerSid is a required parameter.")

/-- Request parameters of `hold(targetWorkerSid, onHold)`. -/
structure HoldRequest where
  taskSid : String
  targetWorkerSid : String
  hold : Bool

/-- Embedding of the validation and request construction of
`Task.hold(targetWorkerSid, onHold)`. -/
def Task.holdRequest (t : TaskState) (targetWorkerSid onHold : JSVal) :
    Except TaskError HoldRequest :=
  match targetWorkerSid with
  | .str s =>
    match onHold with
    | .bool b => Except.ok { taskSid := t.sid, targetWorkerSid := s, hold := b }
    | _ => Except.error (.invalidArgument
        "Error calling method hold. boolean onHold is a required parameter that is either true or false.")
  | _ => Except.error (.invalidArgument
      "Error calling method hold. string targetWorkerSid is a required parameter.")

/-- Request parameters of `transfer(to, options)`; the three optional
parameters are carried only when set. -/
structure TransferRequest where
  reservationSid : String
  taskSid : String
  toEntity : String
  attributes : Option JSVal
  mode : Option JSVal
  priority : Option JSVal

/-- Embedding of the validation and request construction of
`Task.transfer(to, options = {})`: `to` must be a string; each of
`options.attributes`, `options.mode`, `options.priority` is carried exactly
when it is truthy. -/
def Task.transferRequest (t : TaskState) (toEntity : JSVal) (options : JSVal) :
    Except TaskError TransferRequest :=
  match toEntity with
  | .str s =>
    Except.ok
      { reservationSid := t.reservationSid
        taskSid := t.sid
        toEntity := s
        attributes :=
          if truthyOpt (options.lookup "attributes") then options.lookup "attributes"
          else none
        mode :=
          if truthyOpt (options.lookup "mode") then options.lookup "mode"
          else none
        priority :=
          if truthyOpt (options.lookup "priority") then options.lookup "priority"
          else none }
  | _ => Except.error (.invalidArgument
      "Error calling method transfer. string to is a required parameter.")

/-- Embedding of the success path of `Task.transfer`: the response updates
`transfers.outgoing` directly via `Transfers._updateOutgoing`; no Task field
is reconciled. -/
def Task.transferApply (t : TaskState) (response : JSVal) : TaskState :=
  { t with transfers := t.transfers.updateOutgoing response }

/-! ## Routes

Embedding of the Routes class.  Paths are modelled as character lists (the
`data` of the JavaScript strings); `path.join` over plain segments is string
concatenation with `/` separators, written out explicitly here.  The regex
operations of `getRoute` are embedded over character lists:
`countPH` counts the non-overlapping matches of `/%s/g` and `substPH`
performs `replace(/%s/, arg)` with a literal replacement string (the
dollar-escape forms of a JavaScript replacement string are outside the
modelled argument range; the theorems below restrict arguments to
percent-free, dollar-free strings, which sids are). -/

/-- Number of matches of the global regex `/%s/g`: scan left to right,
consuming both characters of each match. -/
def countPH : List Char → Nat
  | [] => 0
  | [_] => 0
  | c :: d :: rest =>
    if c = '%' ∧ d = 's' then countPH rest + 1 else countPH (d :: rest)

/-- `replace(/%s/, arg)` with a literal replacement: substitute the leftmost
match of `%s`, if any, by `arg`. -/
def substPH : List Char → List Char → List Char
  | [], _ => []
  | [c], _ => [c]
  | c :: d :: rest, a =>
    if c = '%' ∧ d = 's' then a ++ rest else c :: substPH (d :: rest) a

/-- The `for (let arg of args) copy.path = copy.path.replace(/%s/, arg)`
loop: left-to-right substitution, one placeholder per argument. -/
def substAll (p : List Char) (args : List (List Char)) : List Char :=
  args.foldl substPH p

/-- No percent character occurs (sids and path segments satisfy this). -/
def noPct (l : List Char) : Prop := '%' ∉ l

instance (l : List Char) : Decidable (noPct l) := by
  unfold noPct; infer_instance

/-- No dollar character occurs.  A JavaScript string replacement treats
`$`-sequences specially (the dollar-escape forms), so the literal-insertion
model of `replace(/%s/, arg)` below coincides with the program only for
dollar-free arguments; sids are dollar-free. -/
def noDollar (l : List Char) : Prop := '$' ∉ l

instance (l : List Char) : Decidable (noDollar l) := by
  unfold noDollar; infer_instance

/-- Route-table misuse errors, named by the specification's taxonomy: an
unregistered route name, or an argument count different from the number of
placeholders (both raised as invalid-argument errors by the source, with
distinguishing messages carrying the route name). -/
inductive RoutesError where
  | unknownRoute (name : String)
  | argumentCountMismatch (name : String)
  deriving DecidableEq

/-- The registered route table of `Routes(workspaceSid, workerSid)`: each
symbolic name maps to its concrete path template. -/
def routes (ws wk : List Char) : List (String × List Char) :=
  [("activitiesList", "Workspaces/".data ++ ws ++ "/Activities".data),
   ("workerInstance", "Workspaces/".data ++ ws ++ "/Workers/".data ++ wk),
   ("workerList", "Workspaces/".data ++ ws ++ "/Workers".data),
   ("reservationInstance",
     "Workspaces/".data ++ ws ++ "/Workers/".data ++ wk ++ "/Reservations/%s".data),
   ("reservationList",
     "Workspaces/".data ++ ws ++ "/Workers/".data ++ wk ++ "/Reservations".data),
   ("taskList", "Workspaces/".data ++ ws ++ "/Tasks".data),
   ("taskInstance", "Workspaces/".data ++ ws ++ "/Tasks/%s".data),
   ("taskTransferList",
     "Workspaces/".data ++ ws ++ "/Workers/".data ++ wk ++ "/Transfers".data),
   ("taskTransferInstance",
     "Workspaces/".data ++ ws ++ "/Workers/".data ++ wk ++ "/Transfers/%s".data),
   ("taskReservationInstance",
     "Workspaces/".data ++ ws ++ "/Tasks/%s/Reservations/%s".data),
   ("taskQueueList", "Workspaces/".data ++ ws ++ "/TaskQueues".data),
   ("workerChannels",
     "Workspaces/".data ++ ws ++ "/Workers/".data ++ wk ++ "/WorkerChannels".data),
   ("customerParticipantInstance",
     "Workspaces/".data ++ ws ++ "/Workers/".data ++ wk ++ "/CustomerParticipant".data),
   ("workerParticipantInstance",
     "Workspaces/".data ++ ws ++ "/Workers/".data ++ wk ++ "/WorkerParticipant".data),
   ("holdWorkerParticipantInstance",
     "Workspaces/".data ++ ws ++ "/Workers/".data ++ wk ++ "/HoldWorkerParticipant".data),
   ("kickWorkerParticipant",
     "Workspaces/".data ++ ws ++ "/Workers/".data ++ wk ++ "/KickWorkerParticipant".data)]

/-- Embedding of `Routes.getRoute(route, ...args)`: an unregistered name
fails; with at least one argument the argument count must equal the number of
placeholder matches in the template, and the arguments are substituted left
to right; with zero arguments the registered route entry is returned as is
(the `if (args.length)` guard of the source skips both the count check and
the substitution). -/
def Routes.getRoute (ws wk : List Char) (name : String)
    (args : List (List Char)) : Except RoutesError (List Char) :=
  match (routes ws wk).lookup name with
  | none => Except.error (.unknownRoute name)
  | some p =>
    if args.length ≠ 0 then
      if args.length ≠ countPH p then
        Except.error (.argumentCountMismatch name)
      else Except.ok (substAll p args)
    else Except.ok p

/-! ## Concrete sample values (used by witnesses and counterexamples) -/

/-- A sample held outgoing transfer. -/
def demoOutgoing : Transfer :=
  { sid := "TRxxx", mode := "WARM", status := "initiated", toSid := "WKzzz" }

/-- A sample Task state holding an outgoing transfer. -/
def demoTask : TaskState :=
  { sid := "WTxxx", reservationSid := "WRxxx", attributes := .obj []
    status := "assigned", workflowSid := "WWxxx", workflowName := "wf"
    queueSid := "WQxxx", queueName := "queue", priority := 1
    reason := none, routingTarget := none, timeout := 120
    taskChannelSid := "TCxxx", taskChannelUniqueName := "default"
    age := 5, addOns := .obj [], dateUpdated := 100
    transfers := { incoming := none, outgoing := some demoOutgoing } }

/-- A sample well-formed Task payload. -/
def validPayload : JSVal :=
  .obj [("sid", .str "WTxxx"),
        ("attributes", .obj [("language", .str "en")]),
        ("assignment_status", .str "completed"),
        ("workflow_sid", .str "WWxxx"),
        ("workflow_name", .str "wf"),
        ("queue_sid", .str "WQxxx"),
        ("queue_name", .str "queue"),
        ("priority", .num 10),
        ("reason", .str "done"),
        ("routing_target", .null),
        ("timeout", .num 86400),
        ("task_channel_sid", .str "TCxxx"),
        ("task_channel_unique_name", .str "default"),
        ("age", .num 25),
        ("addons", .obj []),
        ("date_updated", .num 200)]

/-- The descriptor `validPayload` parses to. -/
def demoDescr : TaskDescriptor :=
  { sid := "WTxxx", attributes := .obj [("language", .str "en")]
    status := "completed", workflowSid := "WWxxx", workflowName := "wf"
    queueSid := "WQxxx", queueName := "queue", priority := 10
    reason := some "done", routingTarget := none, timeout := 86400
    taskChannelSid := "TCxxx", taskChannelUniqueName := "default"
    age := 25, addOns := .obj [], dateUpdated := 200 }

/-! ## Theorems -/

/-- The TransferSet merge routine is idempotent: every slot it touches is
rebuilt purely from the payload, and every slot it leaves is preserved. -/
theorem TransferSet.merge_idem (ts : TransferSet) (p : JSVal) :
    (ts.merge p).merge p = ts.merge p := by
  unfold TransferSet.merge
  by_cases h1 : truthyOpt (p.lookup "incoming") = true <;>
    by_cases h2 : truthyOpt (p.lookup "outgoing") = true <;>
      simp [h1, h2]

/-- C1: Reconciliation overwrites wholesale and is idempotent: for every
payload that parses into a valid descriptor, `Task._update` sets each field
of the fixed update set to exactly the descriptor's value regardless of its
prior value, throws nothing, and applying the same payloads a second time in
succession yields a state identical to the state after the first
application. -/
theorem c1_reconcile_wholesale_idempotent (t : TaskState) (payload tp : JSVal)
    (d : TaskDescriptor) (hparse : parseTaskDescriptor payload = Except.ok d) :
    (Task.update t payload tp).2 = none
    ∧ ((Task.update t payload tp).1.attributes = d.attributes
      ∧ (Task.update t payload tp).1.status = d.status
      ∧ (Task.update t payload tp).1.workflowSid = d.workflowSid
      ∧ (Task.update t payload tp).1.workflowName = d.workflowName
      ∧ (Task.update t payload tp).1.queueSid = d.queueSid
      ∧ (Task.update t payload tp).1.queueName = d.queueName
      ∧ (Task.update t payload tp).1.priority = d.priority
      ∧ (Task.update t payload tp).1.reason = d.reason
      ∧ (Task.update t payload tp).1.routingTarget = d.routingTarget
      ∧ (Task.update t payload tp).1.timeout = d.timeout
      ∧ (Task.update t payload tp).1.taskChannelSid = d.taskChannelSid
      ∧ (Task.update t payload tp).1.taskChannelUniqueName = d.taskChannelUniqueName
      ∧ (Task.update t payload tp).1.age = d.age
      ∧ (Task.update t payload tp).1.addOns = d.addOns
      ∧ (Task.update t payload tp).1.dateUpdated = d.dateUpdated)
    ∧ Task.update (Task.update t payload tp).1 payload tp
        = Task.update t payload tp := by
  unfold Task.update
  rw [hparse]
  by_cases hc : (truthyOpt (tp.lookup "incoming")
      || truthyOpt (tp.lookup "outgoing")) = true <;>
    simp [hc, applyDescriptor, TransferSet.merge_idem]

/-- C1 witness: the sample payload parses, a first reconciliation of the
sample Task yields the descriptor's fields, and a second reconciliation with
the same payloads changes nothing. -/
theorem c1_reconcile_wholesale_idempotent_witness :
    Task.update (Task.update demoTask validPayload (JSVal.obj [])).1
        validPayload (JSVal.obj [])
      = Task.update demoTask validPayload (JSVal.obj [])
    ∧ (Task.update demoTask validPayload (JSVal.obj [])).1.status
        = demoDescr.status :=
  have h := c1_reconcile_wholesale_idempotent demoTask validPayload
    (JSVal.obj []) demoDescr rfl
  ⟨h.2.2, h.2.1.2.1⟩

/-- C2: Transfer identity guard: when an outgoing transfer is held but the
event payload's `sid` does not strictly equal its sid, dispatching any
outgoing-transfer event changes no state, emits nothing and throws
nothing. -/
theorem c2_transfer_identity_guard (t : TaskState) (out : Transfer)
    (s : String) (raw : JSVal)
    (hout : t.transfers.outgoing = some out)
    (hraw : raw.isObject = true)
    (hsid : sidMatch raw out.sid = false) :
    Task.emitEventForOutgoingTransfer t (.str s) raw
      = { state := t, emitted := [], error := none } := by
  simp [Task.emitEventForOutgoingTransfer, hout, hraw, hsid]

/-- C2 witness: a transfer-completed event carrying a foreign sid leaves the
sample Task untouched. -/
theorem c2_transfer_identity_guard_witness :
    Task.emitEventForOutgoingTransfer demoTask (.str "transfer-completed")
        (JSVal.obj [("sid", JSVal.str "TRother")])
      = { state := demoTask, emitted := [], error := none } :=
  c2_transfer_identity_guard demoTask demoOutgoing "transfer-completed"
    (JSVal.obj [("sid", JSVal.str "TRother")]) rfl rfl rfl

/-- C3: Reconciliation is atomic on parse failure: when the payload does not
parse, `Task._update` throws the reconciliation error carrying the offending
payload's sid and the underlying parse error, and the state it leaves behind
is exactly the prior state. -/
theorem c3_reconcile_atomic_on_parse_failure (t : TaskState)
    (payload tp : JSVal) (e : String)
    (hparse : parseTaskDescriptor payload = Except.error e) :
    Task.update t payload tp
      = (t, some (TaskError.reconciliationFailed (jsSidOf payload) e)) := by
  unfold Task.update
  rw [hparse]

/-- A sample malformed Task payload (a sid but no further required
property). -/
def badPayload : JSVal := .obj [("sid", .str "WTbroken")]

/-- C3 witness: reconciling the sample Task with the malformed payload
reports the offending sid with the parse error and leaves the state
untouched. -/
theorem c3_reconcile_atomic_on_parse_failure_witness :
    Task.update demoTask badPayload (JSVal.obj [])
      = (demoTask, some (TaskError.reconciliationFailed "WTbroken"
          "missing or invalid object property attributes")) :=
  c3_reconcile_atomic_on_parse_failure demoTask badPayload (JSVal.obj [])
    "missing or invalid object property attributes" rfl

/-- C4: Transfer state is framed off from Task-field reconciliation: on a
parsing payload, the TransferSet is routed through its merge routine exactly
when the transfers payload carries a truthy `incoming` or `outgoing`
sub-payload, and is left completely unchanged otherwise, while the Task
fields are still overwritten from the descriptor. -/
theorem c4_transfers_frame (t : TaskState) (payload tp : JSVal)
    (d : TaskDescriptor)
    (hparse : parseTaskDescriptor payload = Except.ok d) :
    ((truthyOpt (tp.lookup "incoming") = true
        ∨ truthyOpt (tp.lookup "outgoing") = true) →
      (Task.update t payload tp).1.transfers = t.transfers.merge tp)
    ∧ (¬ (truthyOpt (tp.lookup "incoming") = true
        ∨ truthyOpt (tp.lookup "outgoing") = true) →
      (Task.update t payload tp).1.transfers = t.transfers
      ∧ (Task.update t payload tp).1.status = d.status
      ∧ (Task.update t payload tp).1.attributes = d.attributes
      ∧ (Task.update t payload tp).1.priority = d.priority
      ∧ (Task.update t payload tp).1.dateUpdated = d.dateUpdated) := by
  unfold Task.update
  rw [hparse]
  constructor
  · intro h
    have hc : (truthyOpt (tp.lookup "incoming")
        || truthyOpt (tp.lookup "outgoing")) = true := by
      rcases h with h | h <;> simp [h]
    simp [hc, applyDescriptor]
  · intro h
    rw [not_or] at h
    have h1 : truthyOpt (tp.lookup "incoming") = false := by
      cases hx : truthyOpt (tp.lookup "incoming")
      · rfl
      · exact absurd hx h.1
    have h2 : truthyOpt (tp.lookup "outgoing") = false := by
      cases hx : truthyOpt (tp.lookup "outgoing")
      · rfl
      · exact absurd hx h.2
    have hc : (truthyOpt (tp.lookup "incoming")
        || truthyOpt (tp.lookup "outgoing")) = false := by
      rw [h1, h2]; rfl
    simp [hc, applyDescriptor]

/-- A sample transfers payload carrying an outgoing sub-payload. -/
def transfersPayload : JSVal :=
  .obj [("outgoing", .obj [("sid", .str "TRnew"), ("mode", .str "COLD"),
    ("status", .str "initiated"), ("to", .str "WKnew")])]

/-- C4 witness: with an outgoing sub-payload the sample Task's TransferSet is
merged; with the default empty transfers payload it is untouched. -/
theorem c4_transfers_frame_witness :
    (Task.update demoTask validPayload transfersPayload).1.transfers
      = demoTask.transfers.merge transfersPayload
    ∧ (Task.update demoTask validPayload (JSVal.obj [])).1.transfers
      = demoTask.transfers :=
  ⟨(c4_transfers_frame demoTask validPayload transfersPayload demoDescr
      rfl).1 (Or.inr rfl),
   ((c4_transfers_frame demoTask validPayload (JSVal.obj []) demoDescr
      rfl).2 (by decide)).1⟩

/-- C5: On a matching sid, a transfer-initiated event replaces the outgoing
slot via the outgoing-update routine and emits the transfer-initiated domain
event carrying the new outgoing transfer entity, while any other event type
is forwarded to the TransferSet's internal event-application routine. -/
theorem c5_initiated_replaces_others_forward (t : TaskState) (out : Transfer)
    (raw : JSVal) (s : String)
    (hout : t.transfers.outgoing = some out)
    (hraw : raw.isObject = true)
    (hsid : sidMatch raw out.sid = true) :
    (Task.emitEventForOutgoingTransfer t (.str transferInitiatedKey) raw
      = { state := { t with transfers := t.transfers.updateOutgoing raw }
          emitted := [.transferEvent "transferInitiated"
            (some (buildTransfer raw))]
          error := none })
    ∧ (t.transfers.updateOutgoing raw).outgoing = some (buildTransfer raw)
    ∧ (s ≠ transferInitiatedKey →
      Task.emitEventForOutgoingTransfer t (.str s) raw
        = { state := { t with transfers := (t.transfers.applyEvent s raw).1 }
            emitted := (t.transfers.applyEvent s raw).2
            error := none }) := by
  have hname : (taskTransferEventTypes.lookup transferInitiatedKey).getD
      "undefined" = "transferInitiated" := rfl
  have hinit : isTransferInitiatedType transferInitiatedKey = true := rfl
  refine ⟨?_, rfl, ?_⟩
  · simp [Task.emitEventForOutgoingTransfer, hout, hraw, hsid, hinit,
      TransferSet.updateOutgoing, hname]
  · intro hne
    have hfalse : isTransferInitiatedType s = false := by
      unfold isTransferInitiatedType
      have hb : (s == transferInitiatedKey) = false :=
        beq_eq_false_iff_ne.mpr hne
      rw [hb, Bool.and_false]
    simp [Task.emitEventForOutgoingTransfer, hout, hraw, hsid, hfalse]

/-- An event payload whose sid matches the sample outgoing transfer. -/
def rawMatching : JSVal := .obj [("sid", .str "TRxxx")]

/-- C5 witness: on the sample Task, a matching transfer-initiated event
replaces the outgoing slot and fires the transfer-initiated domain event; a
matching transfer-completed event is forwarded to the internal
event-application routine. -/
theorem c5_initiated_replaces_others_forward_witness :
    Task.emitEventForOutgoingTransfer demoTask (.str "transfer-initiated")
        rawMatching
      = { state := { demoTask with
            transfers := demoTask.transfers.updateOutgoing rawMatching }
          emitted := [.transferEvent "transferInitiated"
            (some (buildTransfer rawMatching))]
          error := none }
    ∧ Task.emitEventForOutgoingTransfer demoTask (.str "transfer-completed")
        rawMatching
      = { state := { demoTask with
            transfers :=
              (demoTask.transfers.applyEvent "transfer-completed" rawMatching).1 }
          emitted :=
            (demoTask.transfers.applyEvent "transfer-completed" rawMatching).2
          error := none } :=
  have h := c5_initiated_replaces_others_forward demoTask demoOutgoing
    rawMatching "transfer-completed" rfl rfl rfl
  ⟨h.1, h.2.2 (by decide)⟩

/-- C10: When no outgoing transfer is held, dispatching any outgoing-transfer
event — the transfer-initiated kind included — leaves all Task and
TransferSet state unchanged, emits nothing and throws nothing; an outgoing
transfer is never established from an event alone. -/
theorem c10_no_outgoing_no_effect (t : TaskState) (s : String) (raw : JSVal)
    (hout : t.transfers.outgoing = none)
    (hraw : raw.isObject = true) :
    Task.emitEventForOutgoingTransfer t (.str s) raw
      = { state := t, emitted := [], error := none } := by
  simp [Task.emitEventForOutgoingTransfer, hout, hraw]

/-- The sample Task without any held transfer. -/
def demoTaskNoTransfers : TaskState :=
  { demoTask with transfers := { incoming := none, outgoing := none } }

/-- C10 witness: a transfer-initiated event dispatched while no outgoing
transfer is held leaves the sample Task untouched and emits nothing. -/
theorem c10_no_outgoing_no_effect_witness :
    Task.emitEventForOutgoingTransfer demoTaskNoTransfers
        (.str "transfer-initiated") (JSVal.obj [("sid", JSVal.str "TRxxx")])
      = { state := demoTaskNoTransfers, emitted := [], error := none } :=
  c10_no_outgoing_no_effect demoTaskNoTransfers "transfer-initiated"
    (JSVal.obj [("sid", JSVal.str "TRxxx")]) rfl rfl

/-- Whether an operation outcome is a synchronously thrown invalid-argument
error. -/
def isInvalidArgErr {α : Type} : Except TaskError α → Bool
  | .error (.invalidArgument _) => true
  | _ => false

/-- Whether a possibly-missing value is a string. -/
def isStrOpt : Option JSVal → Bool
  | some (.str _) => true
  | _ => false

/-- C6 counterexample: the claim "Attributes, Mode and Priority are each
carried exactly when the corresponding option is present" fails: in
`transfer("WKyyy", {mode: ""})` the `mode` option is present, yet the
source's truthiness test drops it, so the built request omits `Mode`. -/
theorem c6_transfer_request_counterexample :
    Task.transferRequest demoTask (.str "WKyyy")
        (JSVal.obj [("mode", JSVal.str "")])
      = Except.ok { reservationSid := "WRxxx"
                    taskSid := "WTxxx"
                    toEntity := "WKyyy"
                    attributes := none
                    mode := none
                    priority := none }
    ∧ ((JSVal.obj [("mode", JSVal.str "")]).lookup "mode").isSome = true :=
  ⟨rfl, rfl⟩

/-- C6 amended: for a string `to`, the transfer request carries
ReservationSid, TaskSid and To, and carries Attributes, Mode and Priority
each exactly when the corresponding option is present *and truthy* in
`options`; on success the response updates `transfers.outgoing` directly —
no Task field is reconciled — and the new outgoing transfer's sid equals the
sid of the response. -/
theorem c6_transfer_request_amended (t : TaskState) (s : String)
    (options resp : JSVal) (sid : String)
    (hsid : resp.lookup "sid" = some (JSVal.str sid)) :
    (Task.transferRequest t (.str s) options
      = Except.ok
        { reservationSid := t.reservationSid
          taskSid := t.sid
          toEntity := s
          attributes :=
            if truthyOpt (options.lookup "attributes") then
              options.lookup "attributes" else none
          mode :=
            if truthyOpt (options.lookup "mode") then
              options.lookup "mode" else none
          priority :=
            if truthyOpt (options.lookup "priority") then
              options.lookup "priority" else none })
    ∧ ((Task.transferApply t resp).sid = t.sid
      ∧ (Task.transferApply t resp).reservationSid = t.reservationSid
      ∧ (Task.transferApply t resp).attributes = t.attributes
      ∧ (Task.transferApply t resp).status = t.status
      ∧ (Task.transferApply t resp).workflowSid = t.workflowSid
      ∧ (Task.transferApply t resp).workflowName = t.workflowName
      ∧ (Task.transferApply t resp).queueSid = t.queueSid
      ∧ (Task.transferApply t resp).queueName = t.queueName
      ∧ (Task.transferApply t resp).priority = t.priority
      ∧ (Task.transferApply t resp).reason = t.reason
      ∧ (Task.transferApply t resp).routingTarget = t.routingTarget
      ∧ (Task.transferApply t resp).timeout = t.timeout
      ∧ (Task.transferApply t resp).taskChannelSid = t.taskChannelSid
      ∧ (Task.transferApply t resp).taskChannelUniqueName
          = t.taskChannelUniqueName
      ∧ (Task.transferApply t resp).age = t.age
      ∧ (Task.transferApply t resp).addOns = t.addOns
      ∧ (Task.transferApply t resp).dateUpdated = t.dateUpdated)
    ∧ (Task.transferApply t resp).transfers.outgoing
        = some (buildTransfer resp)
    ∧ (buildTransfer resp).sid = sid := by
  refine ⟨rfl, ⟨rfl, rfl, rfl, rfl, rfl, rfl, rfl, rfl, rfl, rfl, rfl, rfl,
    rfl, rfl, rfl, rfl, rfl⟩, rfl, ?_⟩
  unfold buildTransfer
  rw [hsid]

/-- A sample transfer-command response payload. -/
def transferResponse : JSVal :=
  .obj [("sid", .str "TRnew"), ("mode", .str "COLD"),
        ("status", .str "initiated"), ("to", .str "WKyyy")]

/-- C6 witness: applying the sample transfer response to the sample Task
replaces the outgoing slot with a transfer whose sid is the response's sid,
and a sample request with a truthy mode option is built. -/
theorem c6_transfer_request_amended_witness :
    (Task.transferApply demoTask transferResponse).transfers.outgoing
      = some (buildTransfer transferResponse)
    ∧ (buildTransfer transferResponse).sid = "TRnew"
    ∧ (Task.transferApply demoTask transferResponse).status = demoTask.status :=
  have h := c6_transfer_request_amended demoTask "WKyyy"
    (JSVal.obj [("mode", JSVal.str "COLD")]) transferResponse "TRnew" rfl
  ⟨h.2.2.1, h.2.2.2, h.2.1.2.2.2.1⟩

/-- C7 counterexample: the claim that every structural precondition
violation fails synchronously with an invalid-argument error is false:
`wrapUp({reason: false})` carries a reason that is present and not a string
— violating the specified precondition "options.reason, if present, must be
a string" — yet the source's truthiness test treats it as absent: the call
succeeds and builds a request without a Reason. -/
theorem c7_precondition_counterexample :
    Task.wrapUpRequest demoTask (JSVal.obj [("reason", JSVal.bool false)])
      = Except.ok { assignmentStatus := "wrapping", reason := none } := rfl

/-- C7 amended: each command operation fails synchronously with an
invalid-argument error — before any request is built — exactly when the
type-shape check the code performs fails: a non-string `reason`, `to`,
`workerSid` or `targetWorkerSid` (empty strings pass), a non-boolean
`onHold`, a non-object `attributes`, participant options not matching the
recognized boolean `hold` schema, and for `wrapUp` a reason that is truthy
yet not a string (a falsy non-string reason is treated as absent). -/
theorem c7_precondition_checks (t : TaskState)
    (x options attrs popts wopts tsid hold : JSVal) :
    (isInvalidArgErr (Task.completeRequest t x) = true ↔ x.isString = false)
    ∧ (isInvalidArgErr (Task.transferRequest t x options) = true
        ↔ x.isString = false)
    ∧ (isInvalidArgErr (Task.kickRequest t x) = true ↔ x.isString = false)
    ∧ (isInvalidArgErr (Task.setAttributesRequest t attrs) = true
        ↔ attrs.isObject = false)
    ∧ (isInvalidArgErr (Task.holdRequest t tsid hold) = true
        ↔ (tsid.isString = false
          ∨ (tsid.isString = true ∧ hold.isBool = false)))
    ∧ (isInvalidArgErr (Task.updateParticipantRequest t popts) = true
        ↔ validateParticipantOptions popts = false)
    ∧ (isInvalidArgErr (Task.wrapUpRequest t wopts) = true
        ↔ (truthyOpt (wopts.lookup "reason") = true
          ∧ isStrOpt (wopts.lookup "reason") = false)) := by
  refine ⟨?_, ?_, ?_, ?_, ?_, ?_, ?_⟩
  · cases x <;> simp [Task.completeRequest, JSVal.isString, isInvalidArgErr]
  · cases x <;> simp [Task.transferRequest, JSVal.isString, isInvalidArgErr]
  · cases x <;> simp [Task.kickRequest, JSVal.isString, isInvalidArgErr]
  · cases attrs <;>
      simp [Task.setAttributesRequest, JSVal.isObject, isInvalidArgErr]
  · cases tsid <;> cases hold <;>
      simp [Task.holdRequest, JSVal.isString, JSVal.isBool, isInvalidArgErr]
  · by_cases hv : validateParticipantOptions popts = true
    · simp [Task.updateParticipantRequest, hv, isInvalidArgErr]
    · rw [Bool.not_eq_true] at hv
      simp [Task.updateParticipantRequest, hv, isInvalidArgErr]
  · cases hr : wopts.lookup "reason" with
    | none => simp [Task.wrapUpRequest, hr, truthyOpt, isStrOpt,
        isInvalidArgErr]
    | some v =>
      cases v with
      | str s =>
        by_cases hs : s = "" <;>
          simp [Task.wrapUpRequest, hr, truthyOpt, JSVal.truthy, hs,
            isStrOpt, isInvalidArgErr]
      | bool b =>
        cases b <;>
          simp [Task.wrapUpRequest, hr, truthyOpt, JSVal.truthy, isStrOpt,
            isInvalidArgErr]
      | num n =>
        by_cases hn : n = 0 <;>
          simp [Task.wrapUpRequest, hr, truthyOpt, JSVal.truthy, hn,
            isStrOpt, isInvalidArgErr]
      | null =>
        simp [Task.wrapUpRequest, hr, truthyOpt, JSVal.truthy, isStrOpt,
          isInvalidArgErr]
      | obj fs =>
        simp [Task.wrapUpRequest, hr, truthyOpt, JSVal.truthy, isStrOpt,
          isInvalidArgErr]

/-- C9 counterexample: the claim that dispatch fails whenever the event type
is not a *non-empty* string is false: the empty string passes the source's
`isString` check, so `_emitEvent("", {})` emits an event named by the empty
string instead of failing. -/
theorem c9_dispatch_counterexample :
    Task.emitEvent demoTask (.str "") (JSVal.obj [])
      = Except.ok [.taskEvent ""] := rfl

/-- C9 amended: event dispatch fails with an invalid-argument error exactly
when `eventType` is not a string (empty strings are accepted) or
`rawEventData` is not a structured object; otherwise it emits `eventType`
with the Task itself as the event payload. -/
theorem c9_dispatch_checks (t : TaskState) (et raw : JSVal) :
    (isInvalidArgErr (Task.emitEvent t et raw) = true
      ↔ (et.isString = false ∨ raw.isObject = false))
    ∧ (∀ s, et = .str s → raw.isObject = true →
        Task.emitEvent t et raw = Except.ok [.taskEvent s]) := by
  constructor
  · cases et <;>
      by_cases hr : raw.isObject = true <;>
        simp [Task.emitEvent, JSVal.isString, isInvalidArgErr, hr]
  · intro s hs hraw
    subst hs
    simp [Task.emitEvent, hraw]

/-- C9 witness: a well-formed dispatch on the sample Task emits the event
with the Task as payload. -/
theorem c9_dispatch_checks_witness :
    Task.emitEvent demoTask (.str "updated") (JSVal.obj [])
      = Except.ok [.taskEvent "updated"] :=
  (c9_dispatch_checks demoTask (.str "updated") (JSVal.obj [])).2
    "updated" rfl rfl

/-! ## Placeholder counting and substitution lemmas -/

/-- Every percent character starts a `%s` placeholder.  All registered route
templates satisfy this once the workspace and worker sids are percent-free. -/
def wfPH : List Char → Bool
  | [] => true
  | [c] => decide (c ≠ '%')
  | c :: d :: rest =>
    if c = '%' then decide (d = 's') && wfPH rest else wfPH (d :: rest)

/-- A percent-free head preserves the placeholder count. -/
theorem countPH_cons (c : Char) (L : List Char) (hc : c ≠ '%') :
    countPH (c :: L) = countPH L := by
  cases L with
  | nil => rfl
  | cons z t =>
    simp only [countPH]
    rw [if_neg (fun hh => hc hh.1)]

/-- A percent-free prefix contributes no placeholders. -/
theorem countPH_append (xs ys : List Char) (h : noPct xs) :
    countPH (xs ++ ys) = countPH ys := by
  induction xs with
  | nil => rfl
  | cons x xs ih =>
    have hx : x ≠ '%' := by
      intro he
      exact h (by rw [he]; exact List.mem_cons_self _ _)
    have hxs : noPct xs := fun hm => h (List.mem_cons_of_mem x hm)
    rw [List.cons_append, countPH_cons x (xs ++ ys) hx]
    exact ih hxs

/-- Substitution passes over a percent-free prefix. -/
theorem substPH_append (xs ys a : List Char) (h : noPct xs) :
    substPH (xs ++ ys) a = xs ++ substPH ys a := by
  induction xs with
  | nil => rfl
  | cons x xs ih =>
    have hx : x ≠ '%' := by
      intro he
      exact h (by rw [he]; exact List.mem_cons_self _ _)
    have hxs : noPct xs := fun hm => h (List.mem_cons_of_mem x hm)
    cases hxy : xs ++ ys with
    | nil =>
      rcases List.append_eq_nil.mp hxy with ⟨h1, h2⟩
      subst h1; subst h2
      rfl
    | cons z t =>
      rw [List.cons_append, hxy]
      show substPH (x :: z :: t) a = x :: xs ++ substPH ys a
      rw [substPH, if_neg (fun hh => hx hh.1), ← hxy, ih hxs]
      rfl

/-- A percent-free head preserves template well-formedness. -/
theorem wfPH_cons (c : Char) (L : List Char) (hc : c ≠ '%')
    (hL : wfPH L = true) : wfPH (c :: L) = true := by
  cases L with
  | nil => simp [wfPH, hc]
  | cons z t =>
    show wfPH (c :: z :: t) = true
    rw [wfPH, if_neg hc]
    exact hL

/-- A percent-free string is a well-formed template. -/
theorem wfPH_of_noPct (L : List Char) (h : noPct L) : wfPH L = true := by
  induction L with
  | nil => rfl
  | cons c L ih =>
    have hc : c ≠ '%' := by
      intro he
      exact h (by rw [he]; exact List.mem_cons_self _ _)
    exact wfPH_cons c L hc (ih (fun hm => h (List.mem_cons_of_mem c hm)))

/-- Prepending a percent-free prefix preserves well-formedness. -/
theorem wfPH_append (xs ys : List Char) (hx : noPct xs)
    (hy : wfPH ys = true) : wfPH (xs ++ ys) = true := by
  induction xs with
  | nil => exact hy
  | cons x xs ih =>
    have hx1 : x ≠ '%' := by
      intro he
      exact hx (by rw [he]; exact List.mem_cons_self _ _)
    have hx2 : noPct xs := fun hm => hx (List.mem_cons_of_mem x hm)
    exact wfPH_cons x (xs ++ ys) hx1 (ih hx2)

/-- Substituting a percent-free argument into a well-formed template keeps it
well formed and consumes exactly one placeholder. -/
theorem substPH_wf (p a : List Char) (ha : noPct a) (hp : wfPH p = true) :
    wfPH (substPH p a) = true
    ∧ countPH (substPH p a) = countPH p - 1 := by
  match p, hp with
  | [], _ => exact ⟨rfl, rfl⟩
  | [c], h => exact ⟨h, rfl⟩
  | c :: d :: rest, h =>
    by_cases hc : c = '%'
    · subst hc
      rw [wfPH, if_pos rfl, Bool.and_eq_true, decide_eq_true_eq] at h
      obtain ⟨hd, hrest⟩ := h
      subst hd
      have he : substPH ('%' :: 's' :: rest) a = a ++ rest := by
        rw [substPH, if_pos ⟨rfl, rfl⟩]
      rw [he]
      refine ⟨wfPH_append a rest ha hrest, ?_⟩
      rw [countPH_append a rest ha]
      show countPH rest = countPH ('%' :: 's' :: rest) - 1
      rw [countPH, if_pos ⟨rfl, rfl⟩]
      simp
    · rw [wfPH, if_neg hc] at h
      have he : substPH (c :: d :: rest) a = c :: substPH (d :: rest) a := by
        rw [substPH, if_neg (fun hh => hc hh.1)]
      have ih := substPH_wf (d :: rest) a ha h
      rw [he]
      refine ⟨wfPH_cons c _ hc ih.1, ?_⟩
      rw [countPH_cons c _ hc, ih.2, countPH_cons c (d :: rest) hc]

/-- Substituting one percent-free argument per placeholder of a well-formed
template leaves no placeholder behind. -/
theorem substAll_count (args : List (List Char)) :
    ∀ p, wfPH p = true → (∀ a ∈ args, noPct a) →
      args.length = countPH p → countPH (substAll p args) = 0 := by
  induction args with
  | nil =>
    intro p _ _ hlen
    show countPH p = 0
    exact hlen.symm
  | cons a args ih =>
    intro p hp ha hlen
    have ha1 : noPct a := ha a (List.mem_cons_self _ _)
    have h2 := substPH_wf p a ha1 hp
    show countPH (substAll (substPH p a) args) = 0
    apply ih (substPH p a) h2.1
      (fun x hx => ha x (List.mem_cons_of_mem _ hx))
    rw [h2.2, ← hlen]
    simp

/-- Every registered route template is well formed once the workspace and
worker sids are percent-free. -/
theorem routes_wf (ws wk : List Char) (hws : noPct ws) (hwk : noPct wk)
    {name : String} {p : List Char}
    (hmem : (routes ws wk).lookup name = some p) : wfPH p = true := by
  simp only [routes, List.lookup] at hmem
  repeat' split at hmem
  all_goals first
  | exact Option.noConfusion hmem
  | (injection hmem with h
     subst h
     simp only [List.append_assoc]
     repeat
       first
       | decide
       | exact wfPH_of_noPct _ hwk
       | apply wfPH_append _ _ hws
       | apply wfPH_append _ _ hwk
       | apply wfPH_cons _ _ (by decide))

/-- C8 counterexample: the claim that any argument count different from the
placeholder count fails — zero arguments included — is false: resolving
`taskInstance` (one placeholder) with zero arguments succeeds and returns the
raw template, placeholder still in place, because the source's
`if (args.length)` guard skips the count check entirely. -/
theorem c8_routes_counterexample :
    Routes.getRoute "WS".data "WK".data "taskInstance" []
      = Except.ok ("Workspaces/WS/Tasks/%s".data)
    ∧ countPH ("Workspaces/WS/Tasks/%s".data) = 1 := by
  constructor
  · rfl
  · decide

/-- C8 amended: for every registered route, resolution with zero arguments
returns the registered entry unchanged (even when placeholders remain); with
at least one argument, an argument count different from the template's
placeholder count fails with the argument-count-mismatch error, and an
argument count equal to it succeeds with the arguments substituted strictly
left to right, one placeholder per argument, leaving no placeholder marker
in the result.  The arguments and the workspace/worker identifiers are
restricted to percent-free, dollar-free strings (which sids are): a
dollar-containing argument would engage the dollar-escape forms of the
JavaScript replacement that the literal-insertion model does not cover. -/
theorem c8_routes_resolution (ws wk : List Char) (hws : noPct ws)
    (hwk : noPct wk) (name : String) (p : List Char)
    (hmem : (routes ws wk).lookup name = some p)
    (args : List (List Char))
    (hargs : ∀ a ∈ args, noPct a ∧ noDollar a) :
    (args = [] → Routes.getRoute ws wk name args = Except.ok p)
    ∧ (args ≠ [] → args.length ≠ countPH p →
        Routes.getRoute ws wk name args
          = Except.error (.argumentCountMismatch name))
    ∧ (args ≠ [] → args.length = countPH p →
        Routes.getRoute ws wk name args = Except.ok (substAll p args)
        ∧ countPH (substAll p args) = 0) := by
  refine ⟨?_, ?_, ?_⟩
  · intro h
    subst h
    simp [Routes.getRoute, hmem]
  · intro h1 h2
    have hlen : args.length ≠ 0 := fun hh => h1 (List.length_eq_zero.mp hh)
    simp only [Routes.getRoute, hmem]
    rw [if_pos hlen, if_pos h2]
  · intro h1 hlen
    have hlen0 : args.length ≠ 0 := fun hh => h1 (List.length_eq_zero.mp hh)
    constructor
    · simp only [Routes.getRoute, hmem]
      rw [if_pos hlen0, if_neg (fun hc => hc hlen)]
    · exact substAll_count args p (routes_wf ws wk hws hwk hmem)
        (fun a ha => (hargs a ha).1) hlen

/-- C8 witness: the two-placeholder route resolves with two sid arguments to
the fully substituted path, with no placeholder marker left. -/
theorem c8_routes_resolution_witness :
    Routes.getRoute "WS".data "WK".data "taskReservationInstance"
        ["WTaaa".data, "WRbbb".data]
      = Except.ok (substAll
          ("Workspaces/".data ++ "WS".data ++ "/Tasks/%s/Reservations/%s".data)
          ["WTaaa".data, "WRbbb".data])
    ∧ countPH (substAll
        ("Workspaces/".data ++ "WS".data ++ "/Tasks/%s/Reservations/%s".data)
        ["WTaaa".data, "WRbbb".data]) = 0 :=
  (c8_routes_resolution "WS".data "WK".data (by decide) (by decide)
    "taskReservationInstance"
    ("Workspaces/".data ++ "WS".data ++ "/Tasks/%s/Reservations/%s".data)
    rfl ["WTaaa".data, "WRbbb".data] (by decide)).2.2
    (by decide) (by decide)

end TwilioTaskRouter
